import Mathlib

/-!
A verification development for an email OTP (one-time password) system.

The definitions below are shallow embeddings of the JavaScript sources:
`lib/utils.js` (`generateOTP`, `validateEmail`, `validateOTP`,
`createResponse`, `checkRateLimit`), `lib/types.js` (validation pattern
and message constants), `server/middleware/otp-middleware.js`
(`req.sendOtp`, `req.verifyOtp`) and the monolithic server `index.js`
(the `POST /verifyotp` handler).

JavaScript `Map` objects keyed by strings are modelled as association
lists with `mapGet` / `mapSet` / `mapDelete`.  `Date.now()` is modelled
by an explicit `now : Nat` parameter (milliseconds), `Math.random()` by
an explicit natural parameter `rand` giving the floor of the scaled
random draw, and the fallibility of `transporter.sendMail` by a boolean
`mailOk` parameter.
-/

namespace Otp

/-- Association-list model of a JavaScript `Map` with string keys:
`Map.prototype.get`. -/
def mapGet {α : Type} (m : List (String × α)) (k : String) : Option α :=
  (m.find? (fun p => p.1 == k)).map (fun p => p.2)

/-- `Map.prototype.delete`. -/
def mapDelete {α : Type} (m : List (String × α)) (k : String) : List (String × α) :=
  m.filter (fun p => !(p.1 == k))

/-- `Map.prototype.set`: replace any existing binding of `k`. -/
def mapSet {α : Type} (m : List (String × α)) (k : String) (v : α) : List (String × α) :=
  (k, v) :: mapDelete m k

theorem find?_filter_self {α : Type} (t : List (String × α)) (k : String) :
    List.find? (fun p => p.1 == k) (t.filter (fun p => !(p.1 == k))) = none := by
  rw [List.find?_eq_none]
  intro a ha
  have := (List.mem_filter.mp ha).2
  simpa using this

theorem find?_filter_ne {α : Type} (t : List (String × α)) (k k' : String) (h : k' ≠ k) :
    List.find? (fun p => p.1 == k') (t.filter (fun p => !(p.1 == k))) =
      List.find? (fun p => p.1 == k') t := by
  induction t with
  | nil => rfl
  | cons a t ih =>
    rw [List.filter_cons]
    by_cases hak : a.1 = k
    · have h1 : (!(a.1 == k)) = false := by simp [hak]
      have h2 : ¬ (a.1 == k') = true := by
        simp only [beq_iff_eq, hak]
        exact fun hh => h hh.symm
      have hstep : List.find? (fun p => p.1 == k') (a :: t) =
          List.find? (fun p => p.1 == k') t := List.find?_cons_of_neg _ h2
      rw [h1, if_neg (by simp), hstep, ih]
    · have h1 : (!(a.1 == k)) = true := by simp [hak]
      rw [h1, if_pos rfl]
      by_cases hak' : a.1 = k'
      · have hs1 : List.find? (fun p => p.1 == k') (a :: t) = some a :=
          List.find?_cons_of_pos _ (by simp [hak'])
        have hs2 : List.find? (fun p => p.1 == k')
            (a :: List.filter (fun p => !(p.1 == k)) t) = some a :=
          List.find?_cons_of_pos _ (by simp [hak'])
        rw [hs1, hs2]
      · have hs1 : List.find? (fun p => p.1 == k') (a :: t) =
            List.find? (fun p => p.1 == k') t :=
          List.find?_cons_of_neg _ (by simp [hak'])
        have hs2 : List.find? (fun p => p.1 == k')
            (a :: List.filter (fun p => !(p.1 == k)) t) =
            List.find? (fun p => p.1 == k') (List.filter (fun p => !(p.1 == k)) t) :=
          List.find?_cons_of_neg _ (by simp [hak'])
        rw [hs1, hs2, ih]

theorem mapGet_delete {α : Type} (m : List (String × α)) (k k' : String) :
    mapGet (mapDelete m k) k' = if k' = k then none else mapGet m k' := by
  by_cases hk : k' = k
  · subst hk
    simp [mapGet, mapDelete, find?_filter_self]
  · rw [if_neg hk]
    unfold mapGet mapDelete
    rw [find?_filter_ne _ _ _ hk]

theorem mapGet_set_self {α : Type} (m : List (String × α)) (k : String) (v : α) :
    mapGet (mapSet m k v) k = some v := by
  simp [mapGet, mapSet, List.find?]

theorem mapGet_set_ne {α : Type} (m : List (String × α)) (k k' : String) (v : α)
    (h : k' ≠ k) : mapGet (mapSet m k v) k' = mapGet m k' := by
  have hkk : ¬ ((k, v).1 == k') = true := by
    simp only [beq_iff_eq]
    exact fun hh => h hh.symm
  have hdel := mapGet_delete m k k'
  rw [if_neg h] at hdel
  unfold mapGet mapSet
  have hstep : List.find? (fun p => p.1 == k') ((k, v) :: mapDelete m k) =
      List.find? (fun p => p.1 == k') (mapDelete m k) := List.find?_cons_of_neg _ hkk
  rw [hstep]
  exact hdel

theorem mapGet_delete_self {α : Type} (m : List (String × α)) (k : String) :
    mapGet (mapDelete m k) k = none := by
  simp [mapGet_delete]

/-- Little-endian base-10 digits of `n`, structurally recursive on a fuel
bound (any `fuel` at least `n` suffices). -/
def toDecDigits (fuel n : Nat) : List Nat :=
  match fuel with
  | 0 => []
  | f + 1 => if n = 0 then [] else n % 10 :: toDecDigits f (n / 10)

/-- JavaScript `Number.prototype.toString` on a nonnegative integer: the
decimal representation, without leading zeros, and `"0"` for zero. -/
def natToString (n : Nat) : String :=
  if n = 0 then "0" else String.mk ((toDecDigits n n).reverse.map Nat.digitChar)

theorem toDecDigits_eq_digits (fuel : Nat) :
    ∀ n, n ≤ fuel → toDecDigits fuel n = Nat.digits 10 n := by
  induction fuel with
  | zero =>
    intro n hn
    have : n = 0 := Nat.le_zero.mp hn
    subst this
    simp [toDecDigits]
  | succ f ih =>
    intro n hn
    by_cases h0 : n = 0
    · subst h0; simp [toDecDigits]
    · have hdiv : n / 10 ≤ f := by
        have := Nat.div_lt_self (Nat.pos_of_ne_zero h0) (by norm_num : 1 < 10)
        omega
      rw [Nat.digits_def' (by norm_num : 1 < 10) (Nat.pos_of_ne_zero h0)]
      simp [toDecDigits, h0, ih (n / 10) hdiv]

theorem natToString_data {n : Nat} (h : n ≠ 0) :
    (natToString n).data = (Nat.digits 10 n).reverse.map Nat.digitChar := by
  simp [natToString, h, toDecDigits_eq_digits n n le_rfl]

theorem digitChar_isDigit {d : Nat} (hd : d < 10) : (Nat.digitChar d).isDigit = true := by
  interval_cases d <;> rfl

theorem digitChar_ne_zero_char {d : Nat} (hd : d < 10) (h0 : d ≠ 0) :
    Nat.digitChar d ≠ '0' := by
  interval_cases d <;> simp_all <;> decide

theorem natToString_length {L n : Nat} (hL : 1 ≤ L) (h1 : 10 ^ (L - 1) ≤ n)
    (h2 : n < 10 ^ L) : (natToString n).data.length = L := by
  have hn : n ≠ 0 := by
    have : 1 ≤ 10 ^ (L - 1) := Nat.one_le_pow _ _ (by norm_num)
    omega
  rw [natToString_data hn]
  rw [List.length_map, List.length_reverse]
  rw [Nat.digits_len 10 n (by norm_num) hn]
  have hL1 : L - 1 + 1 = L := by omega
  have h2' : n < 10 ^ (L - 1 + 1) := by rw [hL1]; exact h2
  have hlog : Nat.log 10 n = L - 1 := Nat.log_eq_of_pow_le_of_lt_pow h1 h2'
  omega

theorem natToString_all_digits {n : Nat} (hn : n ≠ 0) :
    ∀ c ∈ (natToString n).data, c.isDigit = true := by
  rw [natToString_data hn]
  intro c hc
  simp only [List.mem_map, List.mem_reverse] at hc
  obtain ⟨d, hd, rfl⟩ := hc
  exact digitChar_isDigit (Nat.digits_lt_base (by norm_num) hd)

theorem natToString_head_ne_zero {n : Nat} (hn : n ≠ 0) :
    (natToString n).data.head? ≠ some '0' := by
  rw [natToString_data hn]
  have hne : Nat.digits 10 n ≠ [] := Nat.digits_ne_nil_iff_ne_zero.mpr hn
  rw [List.head?_map, List.head?_reverse]
  rw [List.getLast?_eq_getLast _ hne]
  intro h
  simp only [Option.map, Option.some.injEq] at h
  have hlast := Nat.getLast_digit_ne_zero 10 hn
  have hmem : (Nat.digits 10 n).getLast hne ∈ Nat.digits 10 n := List.getLast_mem hne
  have hlt : (Nat.digits 10 n).getLast hne < 10 := Nat.digits_lt_base (by norm_num) hmem
  exact digitChar_ne_zero_char hlt hlast h

/-- `generateOTP` from `lib/utils.js`:
`Math.floor(Math.random() * (max - min + 1) + min).toString()` with
`min = 10 ^ (length - 1)` and `max = 10 ^ length - 1`.  The parameter
`rand` stands for `Math.floor(Math.random() * (max - min + 1))`, which
ranges over `0 .. max - min` as the random draw ranges over `[0, 1)`. -/
def generateOTP (length rand : Nat) : String :=
  natToString (10 ^ (length - 1) + rand)

/-- `s` is a possible return value of `generateOTP length` for some draw. -/
def otpPossible (length : Nat) (s : String) : Prop :=
  ∃ rand, rand ≤ (10 ^ length - 1) - 10 ^ (length - 1) ∧ generateOTP length rand = s

/-- JavaScript `String.prototype.trim`: strip leading and trailing
whitespace. -/
def jsTrim (s : String) : String :=
  String.mk (((s.data.dropWhile Char.isWhitespace).reverse.dropWhile Char.isWhitespace).reverse)

/-- A character allowed by the bracket class of the email pattern in
`lib/types.js` (anything but whitespace and the at sign). -/
def okEmailChar (c : Char) : Bool := !c.isWhitespace && !(c == '@')

/-- Matcher for the email pattern of `lib/types.js`: the string splits as
`a@b.c` where `a` and `b.c` surround the at sign, a dot with nonempty
sides sits inside the tail, and all three parts consist of `okEmailChar`
characters.  A regular-expression match exists exactly when some such
split exists. -/
def emailRegexTest (s : String) : Bool :=
  let cs := s.data
  (List.range cs.length).any fun i =>
    (List.range cs.length).any fun j =>
      decide (1 ≤ i) && decide (i + 1 < j) && decide (j + 1 < cs.length) &&
        (cs[i]? == some '@') && (cs[j]? == some '.') &&
        (cs.take i).all okEmailChar &&
        ((cs.drop (i + 1)).take (j - (i + 1))).all okEmailChar &&
        (cs.drop (j + 1)).all okEmailChar

/-- The test of the regular expression built in `validateOTP` from the
expected length (exactly `len` digit characters). -/
def matchesDigits (len : Nat) (s : String) : Bool :=
  s.data.length == len && s.data.all Char.isDigit

/-- The `{ isValid, error? }` objects returned by the validators in
`lib/utils.js`. -/
inductive ValidationResult where
  | valid : ValidationResult
  | invalid : String → ValidationResult
deriving DecidableEq

def EMAIL_REQUIRED : String := "Email is required"

def INVALID_EMAIL : String := "Please enter a valid email address"

def OTP_REQUIRED : String := "OTP is required"

def INVALID_OTP : String := "Please enter a valid 6-digit OTP"

/-- `validateEmail` from `lib/utils.js`. -/
def validateEmail (email : String) : ValidationResult :=
  if email = "" || jsTrim email = "" then .invalid EMAIL_REQUIRED
  else if !(emailRegexTest (jsTrim email)) then .invalid INVALID_EMAIL
  else .valid

/-- `validateOTP` from `lib/utils.js`: the trimmed input must be exactly
`expectedLength` digits. -/
def validateOTP (otp : String) (expectedLength : Nat) : ValidationResult :=
  if otp = "" || jsTrim otp = "" then .invalid OTP_REQUIRED
  else if !(matchesDigits expectedLength (jsTrim otp)) then .invalid INVALID_OTP
  else .valid

/-- The `{ success, message, data? }` objects produced by
`createResponse` in `lib/utils.js`; the only `data` payload the
middleware uses is `{ email }`, modelled as the email string. -/
structure Response where
  success : Bool
  message : String
  data : Option String
deriving DecidableEq

/-- `createResponse` from `lib/utils.js`. -/
def createResponse (success : Bool) (message : String) (data : Option String) : Response :=
  ⟨success, message, data⟩

/-- A rate-limit record (`{ attempts, resetTime }`). -/
structure RLRecord where
  attempts : Nat
  resetTime : Nat
deriving DecidableEq

/-- Result of `checkRateLimit`: `{ allowed: true }` or
`{ allowed: false, resetTime, error }`. -/
structure RateLimitResult where
  allowed : Bool
  resetTime : Option Nat
  error : Option String
deriving DecidableEq

/-- The denial message of `checkRateLimit`: `Math.ceil` of the remaining
milliseconds divided by `1000` and by `60`. -/
def rateLimitError (resetTime now : Nat) : String :=
  "Too many attempts. Try again after " ++ natToString ((resetTime - now + 59999) / 60000)
    ++ " minutes."

abbrev RLStore := List (String × RLRecord)

/-- `checkRateLimit` from `lib/utils.js`.  The record read from the map
is a reference into the map, so the in-place window-reset mutation of
its fields is visible in the store even when the call then denies. -/
def checkRateLimit (store : RLStore) (key : String) (maxAttempts windowMs now : Nat) :
    RateLimitResult × RLStore :=
  let existing := mapGet store key
  let r0 : RLRecord := match existing with
    | some r => r
    | none => ⟨0, now + windowMs⟩
  let record : RLRecord := if r0.resetTime < now then ⟨0, now + windowMs⟩ else r0
  let store1 : RLStore := match existing with
    | some _ => if r0.resetTime < now then mapSet store key record else store
    | none => store
  if maxAttempts ≤ record.attempts then
    (⟨false, some record.resetTime, some (rateLimitError record.resetTime now)⟩, store1)
  else
    (⟨true, none, none⟩, mapSet store1 key ⟨record.attempts + 1, record.resetTime⟩)

/-- An OTP store entry (`{ otp, expireAt }`). -/
structure OtpEntry where
  otp : String
  expireAt : Nat
deriving DecidableEq

abbrev OtpStore := List (String × OtpEntry)

/-- The `rateLimit` options of the middleware configuration. -/
structure RateLimitOptions where
  maxAttempts : Nat
  windowMs : Nat
deriving DecidableEq

/-- The middleware configuration after `{ ...DEFAULT_CONFIG, ...options }`. -/
structure OtpConfig where
  otpLength : Nat
  expiryMinutes : Nat
  rateLimit : Option RateLimitOptions
deriving DecidableEq

/-- `DEFAULT_CONFIG` from `lib/types.js` (it carries no `rateLimit` key,
so rate limiting is off by default in the middleware). -/
def DEFAULT_CONFIG : OtpConfig := ⟨6, 5, none⟩

/-- `req.verifyOtp` from `server/middleware/otp-middleware.js`. -/
def verifyOtp (config : OtpConfig) (otpStore : OtpStore) (email otp : String) (now : Nat) :
    Response × OtpStore :=
  match validateEmail email with
  | .invalid err => (createResponse false err none, otpStore)
  | .valid =>
    match validateOTP otp config.otpLength with
    | .invalid err => (createResponse false err none, otpStore)
    | .valid =>
      match mapGet otpStore email with
      | none =>
        (createResponse false "OTP not found for this email. Please request a new OTP." none,
          otpStore)
      | some storeData =>
        if storeData.expireAt < now then
          (createResponse false "OTP has expired. Please request a new OTP." none,
            mapDelete otpStore email)
        else if storeData.otp = otp then
          (createResponse true "OTP verified successfully!" (some email), mapDelete otpStore email)
        else
          (createResponse false "Invalid OTP. Please try again." none, otpStore)

/-- The tail of `req.sendOtp` after validation and rate limiting:
generate the code, store it, then dispatch mail.  `mailOk` tells whether
`transporter.sendMail` resolves; on rejection the `catch` block returns
the failure response — after the store write has already happened. -/
def sendOtpCore (config : OtpConfig) (otpStore : OtpStore) (rlStore : RLStore)
    (email : String) (now rand : Nat) (mailOk : Bool) : Response × OtpStore × RLStore :=
  let otp := generateOTP config.otpLength rand
  let expireAt := now + config.expiryMinutes * 60 * 1000
  let otpStore1 := mapSet otpStore email ⟨otp, expireAt⟩
  if mailOk then
    (createResponse true "OTP sent successfully!" (some email), otpStore1, rlStore)
  else
    (createResponse false "Failed to send OTP. Please try again later." none, otpStore1, rlStore)

/-- `req.sendOtp` from `server/middleware/otp-middleware.js`. -/
def sendOtp (config : OtpConfig) (otpStore : OtpStore) (rlStore : RLStore)
    (email : String) (now rand : Nat) (mailOk : Bool) : Response × OtpStore × RLStore :=
  match validateEmail email with
  | .invalid err => (createResponse false err none, otpStore, rlStore)
  | .valid =>
    match config.rateLimit with
    | some rl =>
      let res := checkRateLimit rlStore email rl.maxAttempts rl.windowMs now
      if res.1.allowed then sendOtpCore config otpStore res.2 email now rand mailOk
      else (createResponse false (res.1.error.getD "") none, otpStore, res.2)
    | none => sendOtpCore config otpStore rlStore email now rand mailOk

/-- An HTTP response of the monolithic server: status code plus JSON body
`{ success, message }`. -/
structure HttpResponse where
  status : Nat
  success : Bool
  message : String
deriving DecidableEq

/-- JavaScript strict equality between the `otpStore` `Map` object and a
string, as written on line 90 of `index.js` (`otpStore === otp`): a `Map`
is never strictly equal to a string, so this is constantly `false`.  The
intended comparison was `storedOtp === otp`, as the unused destructured
`storedOtp` and the middleware implementation show. -/
def mapStrictEqString (_store : OtpStore) (_s : String) : Bool := false

/-- The `POST /verifyotp` handler from `index.js`. -/
def indexVerifyOtpHandler (otpStore : OtpStore) (email otp : String) (now : Nat) :
    HttpResponse × OtpStore :=
  if email = "" || otp = "" then
    (⟨400, false, "Email and OTP are required..!"⟩, otpStore)
  else if !(matchesDigits 6 otp) then
    (⟨400, false, "Invalid OTP format. OTP must be 6 digits."⟩, otpStore)
  else
    match mapGet otpStore email with
    | none =>
      (⟨400, false, "OTP not found for this email. Please request a new OTP."⟩, otpStore)
    | some storeData =>
      if storeData.expireAt < now then
        (⟨400, false, "OTP has expired. Please request a new OTP."⟩, mapDelete otpStore email)
      else if mapStrictEqString otpStore otp then
        (⟨200, true, "OTP verified successfully..!"⟩, mapDelete otpStore email)
      else
        (⟨400, false, "Invalid OTP. Please try again."⟩, otpStore)

/-- Iterate `checkRateLimit` for one key over a list of call times,
collecting the admission results. -/
def checkRateLimitSeq (maxAttempts windowMs : Nat) (key : String) (store : RLStore) :
    List Nat → List Bool × RLStore
  | [] => ([], store)
  | t :: ts =>
    let r := checkRateLimit store key maxAttempts windowMs t
    let rest := checkRateLimitSeq maxAttempts windowMs key r.2 ts
    (r.1.allowed :: rest.1, rest.2)

/-- One rate-limiter call, given by a key and a call time. -/
def rlStep (maxAttempts windowMs : Nat) (store : RLStore) (c : String × Nat) : RLStore :=
  (checkRateLimit store c.1 maxAttempts windowMs c.2).2

/-- Fold an arbitrary sequence of rate-limiter calls over a store. -/
def rlRun (maxAttempts windowMs : Nat) (store : RLStore) (calls : List (String × Nat)) : RLStore :=
  calls.foldl (rlStep maxAttempts windowMs) store

/-- Whether the admission gate of `req.sendOtp` passes: vacuously when the
configuration has no `rateLimit`, else when `checkRateLimit` allows. -/
def rlAdmits (config : OtpConfig) (rlStore : RLStore) (email : String) (now : Nat) : Bool :=
  match config.rateLimit with
  | none => true
  | some rl => (checkRateLimit rlStore email rl.maxAttempts rl.windowMs now).1.allowed

theorem isDigit_not_ws {c : Char} (h : c.isDigit = true) : c.isWhitespace = false := by
  cases hw : c.isWhitespace
  · rfl
  · exfalso
    unfold Char.isWhitespace at hw
    simp only [Bool.or_eq_true, decide_eq_true_eq] at hw
    rcases hw with ((h1 | h1) | h1) | h1 <;> subst h1 <;> exact absurd h (by decide)

theorem dropWhile_ws_digits {l : List Char} (h : ∀ c ∈ l, c.isDigit = true) :
    l.dropWhile Char.isWhitespace = l := by
  cases l with
  | nil => rfl
  | cons a t =>
    rw [List.dropWhile_cons]
    have ha : a.isWhitespace = false := isDigit_not_ws (h a (by simp))
    simp [ha]

theorem jsTrim_digits {s : String} (h : ∀ c ∈ s.data, c.isDigit = true) : jsTrim s = s := by
  obtain ⟨l⟩ := s
  unfold jsTrim
  rw [show (String.mk l).data = l from rfl]
  rw [dropWhile_ws_digits h,
    dropWhile_ws_digits (fun c hc => h c (List.mem_reverse.mp hc)), List.reverse_reverse]

theorem jsTrim_space_digits {s : String} (h : ∀ c ∈ s.data, c.isDigit = true) :
    jsTrim (" " ++ s) = s := by
  obtain ⟨l⟩ := s
  unfold jsTrim
  rw [show (" " ++ String.mk l).data = ' ' :: l from rfl]
  rw [List.dropWhile_cons]
  rw [if_pos (by decide)]
  rw [dropWhile_ws_digits h,
    dropWhile_ws_digits (fun c hc => h c (List.mem_reverse.mp hc)), List.reverse_reverse]

theorem matchesDigits_iff {len : Nat} {s : String} :
    matchesDigits len s = true ↔
      s.data.length = len ∧ ∀ c ∈ s.data, c.isDigit = true := by
  simp [matchesDigits, List.all_eq_true]

theorem matchesDigits_all {len : Nat} {s : String} (h : matchesDigits len s = true) :
    ∀ c ∈ s.data, c.isDigit = true :=
  (matchesDigits_iff.mp h).2

theorem matchesDigits_length {len : Nat} {s : String} (h : matchesDigits len s = true) :
    s.data.length = len :=
  (matchesDigits_iff.mp h).1

theorem validateOTP_of_digits {len : Nat} {s : String} (hlen : 1 ≤ len)
    (h : matchesDigits len s = true) : validateOTP s len = .valid := by
  have hall := matchesDigits_all h
  have hlength := matchesDigits_length h
  have htrim : jsTrim s = s := jsTrim_digits hall
  have hne : ¬ s = "" := by
    intro hs
    rw [hs] at hlength
    simp at hlength
    omega
  unfold validateOTP
  rw [htrim]
  simp [hne, h]

theorem validateOTP_space_of_digits {len : Nat} {s : String} (hlen : 1 ≤ len)
    (h : matchesDigits len s = true) : validateOTP (" " ++ s) len = .valid := by
  have hall := matchesDigits_all h
  have hlength := matchesDigits_length h
  have htrim : jsTrim (" " ++ s) = s := jsTrim_space_digits hall
  have hne : ¬ (" " ++ s) = "" := by
    intro hs
    have := congrArg (fun t => t.data.length) hs
    simp [String.data_append] at this
  have hne2 : ¬ s = "" := by
    intro hs
    rw [hs] at hlength
    simp at hlength
    omega
  unfold validateOTP
  rw [htrim]
  simp [hne, hne2, h]

theorem space_append_ne (s : String) : " " ++ s ≠ s := by
  intro h
  have := congrArg (fun t => t.data.length) h
  simp [String.data_append] at this

theorem checkRateLimit_fresh_allow {store : RLStore} {key : String} {M W now : Nat}
    (h : mapGet store key = none) (hM : 1 ≤ M) :
    checkRateLimit store key M W now = (⟨true, none, none⟩, mapSet store key ⟨1, now + W⟩) := by
  unfold checkRateLimit
  rw [h]
  simp [show ¬ (now + W < now) from by omega, show ¬ (M ≤ 0) from by omega]

theorem checkRateLimit_fresh_deny {store : RLStore} {key : String} {W now : Nat}
    (h : mapGet store key = none) :
    checkRateLimit store key 0 W now =
      (⟨false, some (now + W), some (rateLimitError (now + W) now)⟩, store) := by
  unfold checkRateLimit
  rw [h]
  simp [show ¬ (now + W < now) from by omega]

theorem checkRateLimit_active_allow {store : RLStore} {key : String} {M W now j rt : Nat}
    (h : mapGet store key = some ⟨j, rt⟩) (hwin : ¬ rt < now) (hj : j < M) :
    checkRateLimit store key M W now = (⟨true, none, none⟩, mapSet store key ⟨j + 1, rt⟩) := by
  unfold checkRateLimit
  rw [h]
  simp [hwin, show ¬ (M ≤ j) from by omega]

theorem checkRateLimit_active_deny {store : RLStore} {key : String} {M W now j rt : Nat}
    (h : mapGet store key = some ⟨j, rt⟩) (hwin : ¬ rt < now) (hj : M ≤ j) :
    checkRateLimit store key M W now =
      (⟨false, some rt, some (rateLimitError rt now)⟩, store) := by
  unfold checkRateLimit
  rw [h]
  simp [hwin, hj]

theorem checkRateLimit_reset_allow {store : RLStore} {key : String} {M W now j rt : Nat}
    (h : mapGet store key = some ⟨j, rt⟩) (hwin : rt < now) (hM : 1 ≤ M) :
    checkRateLimit store key M W now =
      (⟨true, none, none⟩, mapSet (mapSet store key ⟨0, now + W⟩) key ⟨1, now + W⟩) := by
  unfold checkRateLimit
  rw [h]
  simp [hwin, show ¬ (M ≤ 0) from by omega]

theorem checkRateLimit_reset_deny {store : RLStore} {key : String} {W now j rt : Nat}
    (h : mapGet store key = some ⟨j, rt⟩) (hwin : rt < now) :
    checkRateLimit store key 0 W now =
      (⟨false, some (now + W), some (rateLimitError (now + W) now)⟩,
        mapSet store key ⟨0, now + W⟩) := by
  unfold checkRateLimit
  rw [h]
  simp [hwin]

theorem checkRateLimit_preserves_le (M W : Nat) (store : RLStore) (key : String) (t : Nat)
    (hinv : ∀ k r, mapGet store k = some r → r.attempts ≤ M) :
    ∀ k r, mapGet (checkRateLimit store key M W t).2 k = some r → r.attempts ≤ M := by
  intro k r hr
  rcases hget : mapGet store key with _ | ⟨⟨j, rt⟩⟩
  · by_cases hM : 1 ≤ M
    · rw [checkRateLimit_fresh_allow hget hM] at hr
      by_cases hk : k = key
      · subst hk
        rw [mapGet_set_self] at hr
        cases hr
        show 1 ≤ M
        omega
      · rw [mapGet_set_ne _ _ _ _ hk] at hr
        exact hinv k r hr
    · have hM0 : M = 0 := by omega
      subst hM0
      rw [checkRateLimit_fresh_deny hget] at hr
      exact hinv k r hr
  · by_cases hwin : rt < t
    · by_cases hM : 1 ≤ M
      · rw [checkRateLimit_reset_allow hget hwin hM] at hr
        by_cases hk : k = key
        · subst hk
          rw [mapGet_set_self] at hr
          cases hr
          show 1 ≤ M
          omega
        · rw [mapGet_set_ne _ _ _ _ hk, mapGet_set_ne _ _ _ _ hk] at hr
          exact hinv k r hr
      · have hM0 : M = 0 := by omega
        subst hM0
        rw [checkRateLimit_reset_deny hget hwin] at hr
        by_cases hk : k = key
        · subst hk
          rw [mapGet_set_self] at hr
          cases hr
          show 0 ≤ 0
          omega
        · rw [mapGet_set_ne _ _ _ _ hk] at hr
          exact hinv k r hr
    · by_cases hj : j < M
      · rw [checkRateLimit_active_allow hget hwin hj] at hr
        by_cases hk : k = key
        · subst hk
          rw [mapGet_set_self] at hr
          cases hr
          show j + 1 ≤ M
          omega
        · rw [mapGet_set_ne _ _ _ _ hk] at hr
          exact hinv k r hr
      · rw [checkRateLimit_active_deny hget hwin (by omega)] at hr
        exact hinv k r hr

theorem rlRun_preserves_le (M W : Nat) (calls : List (String × Nat)) :
    ∀ store : RLStore, (∀ k r, mapGet store k = some r → r.attempts ≤ M) →
      ∀ k r, mapGet (rlRun M W store calls) k = some r → r.attempts ≤ M := by
  induction calls with
  | nil => intro store hinv; exact hinv
  | cons c rest ih =>
    intro store hinv
    exact ih _ (checkRateLimit_preserves_le M W store c.1 c.2 hinv)

theorem checkRateLimitSeq_within_window (M W : Nat) (key : String) :
    ∀ (ts : List Nat) (store : RLStore) (j rt : Nat),
      mapGet store key = some ⟨j, rt⟩ →
      (∀ t ∈ ts, t ≤ rt) →
      j + ts.length ≤ M →
      (∀ b ∈ (checkRateLimitSeq M W key store ts).1, b = true) ∧
        mapGet (checkRateLimitSeq M W key store ts).2 key = some ⟨j + ts.length, rt⟩ := by
  intro ts
  induction ts with
  | nil =>
    intro store j rt hget hts hle
    simpa [checkRateLimitSeq] using hget
  | cons t rest ih =>
    intro store j rt hget hts hle
    have ht : t ≤ rt := hts t (by simp)
    have hjM : j < M := by
      simp only [List.length_cons] at hle
      omega
    have hstep : checkRateLimit store key M W t =
        (⟨true, none, none⟩, mapSet store key ⟨j + 1, rt⟩) :=
      checkRateLimit_active_allow hget (by omega) hjM
    have hget1 : mapGet (mapSet store key ⟨j + 1, rt⟩) key = some ⟨j + 1, rt⟩ :=
      mapGet_set_self _ _ _
    have hrest := ih (mapSet store key ⟨j + 1, rt⟩) (j + 1) rt hget1
      (fun t' ht' => hts t' (by simp [ht']))
      (by simp only [List.length_cons] at hle; omega)
    constructor
    · intro b hb
      simp only [checkRateLimitSeq, hstep, List.mem_cons] at hb
      rcases hb with hb | hb
      · rw [hb]
      · exact hrest.1 b hb
    · have h2 := hrest.2
      have hlen : j + (t :: rest).length = j + 1 + rest.length := by
        simp only [List.length_cons]
        omega
      simp only [checkRateLimitSeq, hstep, hlen]
      exact h2

theorem sendOtp_admitted (config : OtpConfig) (otpStore : OtpStore) (rlStore : RLStore)
    (email : String) (now rand : Nat) (mailOk : Bool)
    (hemail : validateEmail email = .valid)
    (hrl : rlAdmits config rlStore email now = true) :
    (sendOtp config otpStore rlStore email now rand mailOk).1 =
      (if mailOk then createResponse true "OTP sent successfully!" (some email)
        else createResponse false "Failed to send OTP. Please try again later." none) ∧
    (sendOtp config otpStore rlStore email now rand mailOk).2.1 =
      mapSet otpStore email
        ⟨generateOTP config.otpLength rand, now + config.expiryMinutes * 60 * 1000⟩ := by
  unfold rlAdmits at hrl
  cases hc : config.rateLimit with
  | none =>
    simp only [sendOtp, hemail, hc]
    cases mailOk <;> simp [sendOtpCore]
  | some rl =>
    have hallow : (checkRateLimit rlStore email rl.maxAttempts rl.windowMs now).1.allowed
        = true := by
      rw [hc] at hrl
      exact hrl
    simp only [sendOtp, hemail, hc, hallow]
    cases mailOk <;> simp [sendOtpCore]

/-- C1, counterexample: `"042917"` is a six-character digit string, yet it is
not a possible return value of `generateOTP 6` — the generated number is at
least `10 ^ 5`, so its decimal representation never starts with `'0'`. -/
theorem generateOTP_leading_zero_impossible :
    matchesDigits 6 "042917" = true ∧ ¬ otpPossible 6 "042917" := by
  constructor
  · decide
  · rintro ⟨k, hk, heq⟩
    have hne : 10 ^ (6 - 1) + k ≠ 0 := by positivity
    have hhead := natToString_head_ne_zero hne
    unfold generateOTP at heq
    rw [heq] at hhead
    exact hhead rfl

/-- C1, amended: for every length `L ≥ 1`, the possible return values of
`generateOTP L` are exactly the decimal representations of the integers in
`[10 ^ (L-1), 10 ^ L - 1]` (one value per draw, so the distribution is
uniform over that range), and no possible return value starts with the
character `'0'`. -/
theorem generateOTP_uniform_over_nonzero_leading_range (L : Nat) (hL : 1 ≤ L) (s : String) :
    (otpPossible L s ↔ ∃ v, 10 ^ (L - 1) ≤ v ∧ v ≤ 10 ^ L - 1 ∧ s = natToString v) ∧
    (otpPossible L s → s.data.head? ≠ some '0') := by
  have hpow : 10 ^ L = 10 ^ (L - 1) * 10 := by
    conv_lhs => rw [← Nat.sub_add_cancel hL]
    rw [pow_succ]
  have hmin1 : 1 ≤ 10 ^ (L - 1) := Nat.one_le_pow _ _ (by norm_num)
  constructor
  · constructor
    · rintro ⟨k, hk, rfl⟩
      exact ⟨10 ^ (L - 1) + k, by omega, by omega, rfl⟩
    · rintro ⟨v, hv1, hv2, rfl⟩
      refine ⟨v - 10 ^ (L - 1), by omega, ?_⟩
      unfold generateOTP
      congr 1
      omega
  · rintro ⟨k, hk, rfl⟩
    exact natToString_head_ne_zero (by omega)

/-- C1, witness for the amended theorem at `L = 6`, `s = "100000"`. -/
theorem generateOTP_uniform_over_nonzero_leading_range_witness :
    1 ≤ 6 ∧
    ((otpPossible 6 "100000" ↔
        ∃ v, 10 ^ (6 - 1) ≤ v ∧ v ≤ 10 ^ 6 - 1 ∧ "100000" = natToString v) ∧
      (otpPossible 6 "100000" → ("100000" : String).data.head? ≠ some '0')) :=
  ⟨by decide, generateOTP_uniform_over_nonzero_leading_range 6 (by decide) "100000"⟩

/-- C2, code bug: in the `POST /verifyotp` handler of `index.js` the
comparison on line 90 is `otpStore === otp` — the `Map` object against the
submitted string — so the success branch is unreachable: no call ever
returns `success = true`, and verifying the exact stored, unexpired code
yields the `Invalid OTP` response and leaves the entry in the store. -/
theorem indexVerifyOtp_success_unreachable :
    (∀ store email otp now, (indexVerifyOtpHandler store email otp now).1.success = false) ∧
    indexVerifyOtpHandler [("a@b.com", ⟨"123456", 300000⟩)] "a@b.com" "123456" 0 =
      (⟨400, false, "Invalid OTP. Please try again."⟩,
        [("a@b.com", ⟨"123456", 300000⟩)]) := by
  constructor
  · intro store email otp now
    unfold indexVerifyOtpHandler
    simp only [mapStrictEqString]
    split
    · rfl
    · split
      · rfl
      · split
        · rfl
        · split
          · rfl
          · simp
  · decide

/-- C3: from a fresh key with `maxAttempts = M ≥ 1` and window `W`, the
first `M` calls at times inside the window are all admitted (ending with
`attempts = M`), a further call inside the window is denied reporting the
window reset time `t0 + W` and the remaining wait, and a call after the
window has elapsed is admitted again with a fresh record
`attempts = 1, resetTime = now + W`. -/
theorem checkRateLimit_window_cycle (M W : Nat) (key : String) (store0 : RLStore)
    (t0 tDeny tReset : Nat) (ts : List Nat)
    (hM : 1 ≤ M) (hfresh : mapGet store0 key = none) (hlen : ts.length = M - 1)
    (hts : ∀ t ∈ ts, t ≤ t0 + W) (hDeny : tDeny ≤ t0 + W) (hReset : t0 + W < tReset) :
    (∀ b ∈ (checkRateLimitSeq M W key store0 (t0 :: ts)).1, b = true) ∧
    mapGet (checkRateLimitSeq M W key store0 (t0 :: ts)).2 key = some ⟨M, t0 + W⟩ ∧
    checkRateLimit (checkRateLimitSeq M W key store0 (t0 :: ts)).2 key M W tDeny =
      (⟨false, some (t0 + W), some (rateLimitError (t0 + W) tDeny)⟩,
        (checkRateLimitSeq M W key store0 (t0 :: ts)).2) ∧
    (checkRateLimit (checkRateLimitSeq M W key store0 (t0 :: ts)).2 key M W tReset).1.allowed
      = true ∧
    mapGet (checkRateLimit (checkRateLimitSeq M W key store0 (t0 :: ts)).2
        key M W tReset).2 key = some ⟨1, tReset + W⟩ := by
  have hfirst : checkRateLimit store0 key M W t0 =
      (⟨true, none, none⟩, mapSet store0 key ⟨1, t0 + W⟩) :=
    checkRateLimit_fresh_allow hfresh hM
  have hseq := checkRateLimitSeq_within_window M W key ts (mapSet store0 key ⟨1, t0 + W⟩)
    1 (t0 + W) (mapGet_set_self _ _ _) hts (by omega)
  have hall : ∀ b ∈ (checkRateLimitSeq M W key store0 (t0 :: ts)).1, b = true := by
    intro b hb
    simp only [checkRateLimitSeq, hfirst, List.mem_cons] at hb
    rcases hb with hb | hb
    · rw [hb]
    · exact hseq.1 b hb
  have hone : 1 + ts.length = M := by omega
  have hfin : mapGet (checkRateLimitSeq M W key store0 (t0 :: ts)).2 key =
      some ⟨M, t0 + W⟩ := by
    have h2 := hseq.2
    rw [hone] at h2
    simp only [checkRateLimitSeq, hfirst]
    exact h2
  refine ⟨hall, hfin, ?_, ?_, ?_⟩
  · exact checkRateLimit_active_deny hfin (by omega) (le_refl M)
  · rw [checkRateLimit_reset_allow hfin hReset hM]
  · rw [checkRateLimit_reset_allow hfin hReset hM]
    exact mapGet_set_self _ _ _

/-- C3, witness: `M = 2`, `W = 60000`, calls at `0` and `1000` admitted,
call at `2000` denied, call at `60001` admitted afresh. -/
theorem checkRateLimit_window_cycle_witness :
    (1 ≤ 2 ∧ mapGet ([] : RLStore) "a@b.com" = none) ∧
    mapGet (checkRateLimitSeq 2 60000 "a@b.com" ([] : RLStore) (0 :: [1000])).2 "a@b.com" =
      some ⟨2, 60000⟩ :=
  ⟨⟨by decide, by decide⟩,
    (checkRateLimit_window_cycle 2 60000 "a@b.com" [] 0 2000 60001 [1000] (by decide)
      (by decide) (by decide) (by decide) (by decide) (by decide)).2.1⟩

/-- C4: starting from the empty limiter store, after any sequence of
`checkRateLimit` calls with maximum `M`, every stored record satisfies
`attempts ≤ M`. -/
theorem rlRun_attempts_le_max (M W : Nat) (calls : List (String × Nat)) (k : String)
    (r : RLRecord) (h : mapGet (rlRun M W [] calls) k = some r) : r.attempts ≤ M :=
  rlRun_preserves_le M W calls []
    (by intro k' r' h'; simp [mapGet, List.find?] at h') k r h

/-- C4, witness: one call with `M = 1` leaves `attempts = 1 ≤ 1`. -/
theorem rlRun_attempts_le_max_witness :
    mapGet (rlRun 1 10 ([] : RLStore) [("a", 0)]) "a" = some ⟨1, 10⟩ ∧ (1 : Nat) ≤ 1 :=
  ⟨by decide, rlRun_attempts_le_max 1 10 [("a", 0)] "a" ⟨1, 10⟩ (by decide)⟩

/-- C5: with a stored, unexpired entry and a well-formed submitted code that
differs from the stored code, `verifyOtp` answers the mismatch response and
leaves the store unchanged, and a later call with the exact stored code
(still unexpired) succeeds and deletes the entry. -/
theorem verifyOtp_mismatch_keeps_entry (config : OtpConfig) (store : OtpStore)
    (email sub : String) (e : OtpEntry) (now now2 : Nat)
    (hemail : validateEmail email = .valid)
    (hsub : validateOTP sub config.otpLength = .valid)
    (hstored : validateOTP e.otp config.otpLength = .valid)
    (hget : mapGet store email = some e)
    (hexp : ¬ e.expireAt < now) (hexp2 : ¬ e.expireAt < now2)
    (hne : e.otp ≠ sub) :
    verifyOtp config store email sub now =
      (createResponse false "Invalid OTP. Please try again." none, store) ∧
    verifyOtp config store email e.otp now2 =
      (createResponse true "OTP verified successfully!" (some email),
        mapDelete store email) := by
  constructor
  · simp only [verifyOtp, hemail, hsub, hget]
    simp [hexp, hne]
  · simp only [verifyOtp, hemail, hstored, hget]
    simp [hexp2]

/-- C5, witness at a concrete store, wrong code `"222222"` against stored
`"111111"`. -/
theorem verifyOtp_mismatch_keeps_entry_witness :
    validateEmail "a@b.com" = .valid ∧
    (verifyOtp DEFAULT_CONFIG [("a@b.com", ⟨"111111", 300000⟩)] "a@b.com" "222222" 5 =
        (createResponse false "Invalid OTP. Please try again." none,
          [("a@b.com", ⟨"111111", 300000⟩)]) ∧
      verifyOtp DEFAULT_CONFIG [("a@b.com", ⟨"111111", 300000⟩)] "a@b.com" "111111" 7 =
        (createResponse true "OTP verified successfully!" (some "a@b.com"),
          mapDelete [("a@b.com", ⟨"111111", 300000⟩)] "a@b.com")) :=
  ⟨by decide,
    verifyOtp_mismatch_keeps_entry DEFAULT_CONFIG [("a@b.com", ⟨"111111", 300000⟩)]
      "a@b.com" "222222" ⟨"111111", 300000⟩ 5 7 (by decide) (by decide) (by decide)
      (by decide) (by decide) (by decide) (by decide)⟩

/-- C6: with a stored entry whose expiry lies strictly before `now`,
`verifyOtp` deletes the entry and answers the expired response, and every
subsequent well-formed verification for that address answers the
not-found response. -/
theorem verifyOtp_expired_deletes (config : OtpConfig) (store : OtpStore)
    (email sub : String) (e : OtpEntry) (now : Nat)
    (hemail : validateEmail email = .valid)
    (hsub : validateOTP sub config.otpLength = .valid)
    (hget : mapGet store email = some e)
    (hexp : e.expireAt < now) :
    verifyOtp config store email sub now =
      (createResponse false "OTP has expired. Please request a new OTP." none,
        mapDelete store email) ∧
    ∀ sub2 now2, validateOTP sub2 config.otpLength = .valid →
      verifyOtp config (mapDelete store email) email sub2 now2 =
        (createResponse false "OTP not found for this email. Please request a new OTP." none,
          mapDelete store email) := by
  constructor
  · simp only [verifyOtp, hemail, hsub, hget]
    simp [hexp]
  · intro sub2 now2 h2
    simp only [verifyOtp, hemail, h2, mapGet_delete_self]

/-- C6, witness: entry expired at `300000`, verified at `300001`. -/
theorem verifyOtp_expired_deletes_witness :
    validateEmail "a@b.com" = .valid ∧
    verifyOtp DEFAULT_CONFIG [("a@b.com", ⟨"123456", 300000⟩)] "a@b.com" "123456" 300001 =
      (createResponse false "OTP has expired. Please request a new OTP." none,
        mapDelete [("a@b.com", ⟨"123456", 300000⟩)] "a@b.com") :=
  ⟨by decide,
    (verifyOtp_expired_deletes DEFAULT_CONFIG [("a@b.com", ⟨"123456", 300000⟩)]
      "a@b.com" "123456" ⟨"123456", 300000⟩ 300001 (by decide) (by decide) (by decide)
      (by decide)).1⟩

/-- C7: when validation and admission pass but mail dispatch fails,
`sendOtp` answers the dispatch-failure response while the freshly written
`(code, expiry)` entry stays in the code store — the write happens before
the dispatch and is not rolled back. -/
theorem sendOtp_dispatch_failure_keeps_entry (config : OtpConfig) (otpStore : OtpStore)
    (rlStore : RLStore) (email : String) (now rand : Nat)
    (hemail : validateEmail email = .valid)
    (hrl : rlAdmits config rlStore email now = true) :
    (sendOtp config otpStore rlStore email now rand false).1 =
      createResponse false "Failed to send OTP. Please try again later." none ∧
    mapGet (sendOtp config otpStore rlStore email now rand false).2.1 email =
      some ⟨generateOTP config.otpLength rand,
        now + config.expiryMinutes * 60 * 1000⟩ := by
  obtain ⟨h1, h2⟩ := sendOtp_admitted config otpStore rlStore email now rand false hemail hrl
  refine ⟨?_, ?_⟩
  · rw [h1]
    simp
  · rw [h2]
    exact mapGet_set_self _ _ _

/-- C7, witness with the default configuration (no rate limit). -/
theorem sendOtp_dispatch_failure_keeps_entry_witness :
    validateEmail "a@b.com" = .valid ∧
    mapGet (sendOtp DEFAULT_CONFIG [] [] "a@b.com" 0 0 false).2.1 "a@b.com" =
      some ⟨generateOTP DEFAULT_CONFIG.otpLength 0,
        0 + DEFAULT_CONFIG.expiryMinutes * 60 * 1000⟩ :=
  ⟨by decide,
    (sendOtp_dispatch_failure_keeps_entry DEFAULT_CONFIG [] [] "a@b.com" 0 0
      (by decide) (by decide)).2⟩

/-- C8: a second issuance for the same address overwrites the first entry:
afterwards the store holds only the new code; submitting the old
(different) code answers the mismatch response without touching the store,
and submitting the new code succeeds and deletes the entry. -/
theorem sendOtp_reissue_invalidates (config : OtpConfig)
    (store0 store1 store2 : OtpStore) (rl0 rl1 : RLStore) (email : String)
    (now1 now2 now3 rand1 rand2 : Nat) (m1 m2 : Bool)
    (hemail : validateEmail email = .valid)
    (hadmit1 : rlAdmits config rl0 email now1 = true)
    (h1s : (sendOtp config store0 rl0 email now1 rand1 m1).2.1 = store1)
    (h1r : (sendOtp config store0 rl0 email now1 rand1 m1).2.2 = rl1)
    (hadmit2 : rlAdmits config rl1 email now2 = true)
    (h2s : (sendOtp config store1 rl1 email now2 rand2 m2).2.1 = store2)
    (hne : generateOTP config.otpLength rand1 ≠ generateOTP config.otpLength rand2)
    (hv1 : validateOTP (generateOTP config.otpLength rand1) config.otpLength = .valid)
    (hv2 : validateOTP (generateOTP config.otpLength rand2) config.otpLength = .valid)
    (hexp : ¬ (now2 + config.expiryMinutes * 60 * 1000) < now3) :
    mapGet store2 email =
      some ⟨generateOTP config.otpLength rand2,
        now2 + config.expiryMinutes * 60 * 1000⟩ ∧
    verifyOtp config store2 email (generateOTP config.otpLength rand1) now3 =
      (createResponse false "Invalid OTP. Please try again." none, store2) ∧
    verifyOtp config store2 email (generateOTP config.otpLength rand2) now3 =
      (createResponse true "OTP verified successfully!" (some email),
        mapDelete store2 email) := by
  have hset2 := (sendOtp_admitted config store1 rl1 email now2 rand2 m2 hemail hadmit2).2
  rw [h2s] at hset2
  have hget2 : mapGet store2 email =
      some ⟨generateOTP config.otpLength rand2, now2 + config.expiryMinutes * 60 * 1000⟩ := by
    rw [hset2]
    exact mapGet_set_self _ _ _
  have hne21 : ¬ ((generateOTP config.otpLength rand2 : String) =
      generateOTP config.otpLength rand1) := fun h => hne h.symm
  refine ⟨hget2, ?_, ?_⟩
  · simp only [verifyOtp, hemail, hv1, hget2]
    simp [hexp, hne21]
  · simp only [verifyOtp, hemail, hv2, hget2]
    simp [hexp]

/-- C8, witness: two issuances for `"a@b.com"` with draws `0` and `1`
(codes `"100000"` and `"100001"`). -/
theorem sendOtp_reissue_invalidates_witness :
    generateOTP DEFAULT_CONFIG.otpLength 0 ≠ generateOTP DEFAULT_CONFIG.otpLength 1 ∧
    verifyOtp DEFAULT_CONFIG [("a@b.com", ⟨"100001", 300000⟩)] "a@b.com"
        (generateOTP DEFAULT_CONFIG.otpLength 0) 5 =
      (createResponse false "Invalid OTP. Please try again." none,
        [("a@b.com", ⟨"100001", 300000⟩)]) :=
  ⟨by decide,
    (sendOtp_reissue_invalidates DEFAULT_CONFIG [] [("a@b.com", ⟨"100000", 300000⟩)]
      [("a@b.com", ⟨"100001", 300000⟩)] [] [] "a@b.com" 0 0 5 0 1 true true
      (by decide) (by decide) (by decide) (by decide) (by decide) (by decide) (by decide)
      (by decide) (by decide) (by decide)).2.1⟩

/-- C9: for every length `L ≥ 1` and every admissible draw, the generated
code is a string of exactly `L` characters, all of them decimal digits. -/
theorem generateOTP_length_and_digits (L rand : Nat) (hL : 1 ≤ L)
    (hrand : rand ≤ (10 ^ L - 1) - 10 ^ (L - 1)) :
    (generateOTP L rand).length = L ∧
      ∀ c ∈ (generateOTP L rand).data, c.isDigit = true := by
  have hpow : 10 ^ L = 10 ^ (L - 1) * 10 := by
    conv_lhs => rw [← Nat.sub_add_cancel hL]
    rw [pow_succ]
  have hmin1 : 1 ≤ 10 ^ (L - 1) := Nat.one_le_pow _ _ (by norm_num)
  have hge : 10 ^ (L - 1) ≤ 10 ^ (L - 1) + rand := by omega
  have hlt : 10 ^ (L - 1) + rand < 10 ^ L := by omega
  have hne : 10 ^ (L - 1) + rand ≠ 0 := by omega
  exact ⟨natToString_length hL hge hlt, natToString_all_digits hne⟩

/-- C9, witness at `L = 6`, draw `0` (code `"100000"`). -/
theorem generateOTP_length_and_digits_witness :
    1 ≤ 6 ∧
    ((generateOTP 6 0).length = 6 ∧ ∀ c ∈ (generateOTP 6 0).data, c.isDigit = true) :=
  ⟨by decide, generateOTP_length_and_digits 6 0 (by decide) (by decide)⟩

/-- C10: for a stored well-formed code, submitting the code with a leading
space passes `validateOTP` (which trims before testing) but fails the
untrimmed comparison, so `verifyOtp` answers the `Invalid OTP` mismatch
response and leaves the entry in the store. -/
theorem verifyOtp_untrimmed_comparison (config : OtpConfig) (store : OtpStore)
    (email : String) (e : OtpEntry) (now : Nat)
    (hemail : validateEmail email = .valid)
    (hget : mapGet store email = some e)
    (hlen : 1 ≤ config.otpLength)
    (hform : matchesDigits config.otpLength e.otp = true)
    (hexp : ¬ e.expireAt < now) :
    validateOTP (" " ++ e.otp) config.otpLength = .valid ∧
    verifyOtp config store email (" " ++ e.otp) now =
      (createResponse false "Invalid OTP. Please try again." none, store) := by
  have hv := validateOTP_space_of_digits hlen hform
  refine ⟨hv, ?_⟩
  have hne : ¬ (e.otp = " " ++ e.otp) := fun h => space_append_ne e.otp h.symm
  simp only [verifyOtp, hemail, hv, hget]
  simp [hexp, hne]

/-- C10, witness: stored `"123456"`, submitted `" 123456"`. -/
theorem verifyOtp_untrimmed_comparison_witness :
    validateEmail "a@b.com" = .valid ∧
    (validateOTP (" " ++ "123456") DEFAULT_CONFIG.otpLength = .valid ∧
      verifyOtp DEFAULT_CONFIG [("a@b.com", ⟨"123456", 300000⟩)] "a@b.com"
          (" " ++ "123456") 5 =
        (createResponse false "Invalid OTP. Please try again." none,
          [("a@b.com", ⟨"123456", 300000⟩)])) :=
  ⟨by decide,
    verifyOtp_untrimmed_comparison DEFAULT_CONFIG [("a@b.com", ⟨"123456", 300000⟩)]
      "a@b.com" ⟨"123456", 300000⟩ 5 (by decide) (by decide) (by decide) (by decide)
      (by decide)⟩

end Otp
